import Mathlib

/-!
Shallow embedding of the resilience and access-decision core of the
subscription-api repository (Go): the Redis cache adapter operations used by
the paywall (internal/cache), the paywall decision engine
(paywall Service: CheckAccess, EnforcePaywall, checkSubscriptionAccess,
checkRateLimit, checkUsageLimits, incrementUsage), the payment service
circuit breaker (payment CircuitBreaker: CanExecute, RecordSuccess,
RecordFailure) and the webhook processing path (processWebhookEvent,
markWebhookProcessed).

Time is modelled in whole seconds (a Nat) for the cache-backed components,
and in nanoseconds (an Int) for the circuit breaker, matching the
comparison `time.Since(lastFailureTime) > RecoveryTimeout * time.Second`
in the source. The Redis store is modelled observationally as an
association list from keys to entries carrying a string value and an
optional absolute expiry deadline; an entry whose deadline has been
reached behaves as absent, which is how Redis expiry is observable to
this program.
-/

/-! ### Cache store model (internal/cache, go-redis semantics) -/

structure Entry where
  value : String
  expiresAt : Option Nat
deriving DecidableEq

abbrev Store := List (String × Entry)

def storeLookup : Store → String → Option Entry
  | [], _ => none
  | (k, e) :: rest, key => if k = key then some e else storeLookup rest key

def storeSet : Store → String → Entry → Store
  | [], key, e => [(key, e)]
  | (k, e0) :: rest, key, e =>
      if k = key then (k, e) :: rest else (k, e0) :: storeSet rest key e

def storeErase : Store → String → Store
  | [], _ => []
  | (k, e) :: rest, key =>
      if k = key then storeErase rest key else (k, e) :: storeErase rest key

/-- An entry is live at `now` when it has no deadline or the deadline is
still in the future; Redis removes a key once its expiry time is reached. -/
def entryLive (now : Nat) (e : Entry) : Bool :=
  match e.expiresAt with
  | none => true
  | some d => decide (now < d)

/-- GET: a present but expired entry is indistinguishable from an absent one. -/
def redisGetEntry (st : Store) (now : Nat) (key : String) : Option Entry :=
  match storeLookup st key with
  | some e => if entryLive now e then some e else none
  | none => none

def redisGet (st : Store) (now : Nat) (key : String) : Option String :=
  (redisGetEntry st now key).map Entry.value

/-- SET with expiration (`cache.Set(ctx, key, value, ttl)`). -/
def redisSet (st : Store) (now : Nat) (key value : String) (ttl : Nat) : Store :=
  storeSet st key ⟨value, some (now + ttl)⟩

/-- Parsing of a decimal integer, as `strconv.Atoi` / Redis do: an optional
sign followed by at least one digit. -/
def digitVal? (c : Char) : Option Nat :=
  if '0' ≤ c ∧ c ≤ '9' then some (c.toNat - '0'.toNat) else none

def digitsVal? : List Char → Nat → Option Nat
  | [], acc => some acc
  | c :: cs, acc =>
      match digitVal? c with
      | some d => digitsVal? cs (acc * 10 + d)
      | none => none

def atoi? (s : String) : Option Int :=
  match s.data with
  | [] => none
  | '-' :: cs =>
      match cs with
      | [] => none
      | _ :: _ => (digitsVal? cs 0).map (fun n => -(n : Int))
  | '+' :: cs =>
      match cs with
      | [] => none
      | _ :: _ => (digitsVal? cs 0).map (fun n => (n : Int))
  | cs => (digitsVal? cs 0).map (fun n => (n : Int))

def intToString (n : Int) : String := toString n

/-- INCR (`cache.Incr`): absent (or expired) key is created holding 1 with
no expiry; an integer value is incremented in place, keeping its expiry;
a non-integer value is an error and the store is unchanged. -/
def redisIncr (st : Store) (now : Nat) (key : String) : Store × Option Int :=
  match redisGetEntry st now key with
  | none => (storeSet st key ⟨"1", none⟩, some 1)
  | some e =>
      match atoi? e.value with
      | some v => (storeSet st key ⟨intToString (v + 1), e.expiresAt⟩, some (v + 1))
      | none => (st, none)

/-- EXPIRE (`cache.Expire`): false on a missing key; a non-positive ttl
deletes the key; otherwise the deadline becomes `now + ttl`. -/
def redisExpire (st : Store) (now : Nat) (key : String) (ttl : Int) : Store × Bool :=
  match redisGetEntry st now key with
  | none => (st, false)
  | some e =>
      if ttl ≤ 0 then (storeErase st key, true)
      else (storeSet st key ⟨e.value, some (now + ttl.toNat)⟩, true)

/-! ### Subscription lookup and checkSubscriptionAccess -/

structure Subscription where
  planID : String
  status : String
  endDate : Nat
deriving DecidableEq

/-- Outcome of `subscriptionSvc.GetActiveSubscriptionByUserID`: a row, no
row (`sql.ErrNoRows`), or a store/query failure. Both non-row outcomes
come back to the paywall as a non-nil Go error. -/
inductive LookupResult where
  | found (sub : Subscription)
  | notFound
  | storeFailure (msg : String)
deriving DecidableEq

/-- Result quadruple of `checkSubscriptionAccess`: (hasAccess, reason,
expiresAt, err). The Go zero `time.Time` is modelled as `none`. -/
structure SubAccess where
  hasAccess : Bool
  reason : String
  expiresAt : Option Nat
  err : Option String
deriving DecidableEq

def checkSubscriptionAccess (lr : LookupResult) (planID : String) (now : Nat) : SubAccess :=
  match lr with
  | .notFound => ⟨false, "No active subscription found", none, none⟩
  | .storeFailure _ => ⟨false, "No active subscription found", none, none⟩
  | .found sub =>
      if sub.status ≠ "active" then ⟨false, "Subscription is not active", none, none⟩
      else if now > sub.endDate then ⟨false, "Subscription has expired", none, none⟩
      else if planID ≠ "" ∧ sub.planID ≠ planID then ⟨false, "Plan mismatch", none, none⟩
      else ⟨true, "Valid subscription", some sub.endDate, none⟩

/-! ### Rate limiter (checkRateLimit) -/

def rateLimitKey (userID action : String) : String :=
  "rate_limit:" ++ userID ++ ":" ++ action

def checkRateLimit (st : Store) (now : Nat) (userID action : String) : Bool × Store :=
  let key := rateLimitKey userID action
  match redisGet st now key with
  | none => (true, redisSet st now key "1" 60)
  | some v =>
      match atoi? v with
      | none => (true, redisSet st now key "1" 60)
      | some count =>
          if count ≥ 10 then (false, st)
          else (true, (redisIncr st now key).1)

/-! ### Usage accountant (checkUsageLimits, incrementUsage) -/

structure UsageInfo where
  current : Int
  limit : Int
  remaining : Int
deriving DecidableEq

def usageKey (userID action : String) : String :=
  "usage:" ++ userID ++ ":" ++ action

def checkUsageLimits (st : Store) (now : Nat) (userID action : String) : UsageInfo :=
  match redisGet st now (usageKey userID action) with
  | none => ⟨0, 100, 100⟩
  | some v =>
      match atoi? v with
      | none => ⟨0, 100, 100⟩
      | some count =>
          let remaining := 100 - count
          ⟨count, 100, if remaining < 0 then 0 else remaining⟩

def secondsPerDay : Nat := 86400

/-- `time.Date(y, m, d, 23, 59, 59, 0, loc)` for the day containing `now`,
at one-second granularity. -/
def endOfDay (now : Nat) : Nat := (now / secondsPerDay) * secondsPerDay + 86399

/-- incrementUsage: INCR the counter, then set its expiration to the end
of the current day. The Bool result is true when no error occurred. -/
def incrementUsage (st : Store) (now : Nat) (userID action : String) : Store × Bool :=
  let key := usageKey userID action
  match redisIncr st now key with
  | (st1, none) => (st1, false)
  | (st1, some _) =>
      let ttl : Int := (endOfDay now : Int) - (now : Int)
      ((redisExpire st1 now key ttl).1, true)

/-! ### Paywall decision engine (EnforcePaywall, CheckAccess) -/

structure PaywallEnforceResponse where
  allowed : Bool
  expiresAt : Option Nat
  usage : UsageInfo
deriving DecidableEq

/-- The HTTP outcome written by `EnforcePaywall` after request binding. -/
inductive EnforceOutcome where
  | rateLimited
  | forbidden (reason : String)
  | internalFailure
  | ok (resp : PaywallEnforceResponse)
deriving DecidableEq

def EnforceOutcome.isOk : EnforceOutcome → Bool
  | .ok _ => true
  | _ => false

def statusOf : EnforceOutcome → Nat
  | .rateLimited => 429
  | .forbidden _ => 403
  | .internalFailure => 500
  | .ok _ => 200

def enforcePaywall (st : Store) (now : Nat) (userID _contentID action : String)
    (lr : LookupResult) : EnforceOutcome × Store :=
  let rl := checkRateLimit st now userID action
  if rl.1 then
    let sub := checkSubscriptionAccess lr "" now
    if sub.err.isSome then (.internalFailure, rl.2)
    else if sub.hasAccess then
      let usage := checkUsageLimits rl.2 now userID action
      let st2 := (incrementUsage rl.2 now userID action).1
      (.ok ⟨true, sub.expiresAt, usage⟩, st2)
    else (.forbidden sub.reason, rl.2)
  else (.rateLimited, rl.2)

structure PaywallCheckResponse where
  hasAccess : Bool
  reason : String
  expiresAt : Option Nat
deriving DecidableEq

inductive CheckOutcome where
  | cacheHit (resp : PaywallCheckResponse)
  | internalFailure
  | ok (resp : PaywallCheckResponse)
deriving DecidableEq

/-- `CheckAccess` after request binding: serve a cached verdict when one
exists, otherwise run the subscription check; an error from it would be
surfaced as an internal server error. -/
def checkAccess (cached : Option PaywallCheckResponse) (lr : LookupResult)
    (planID : String) (now : Nat) : CheckOutcome :=
  match cached with
  | some resp => .cacheHit resp
  | none =>
      let sub := checkSubscriptionAccess lr planID now
      if sub.err.isSome then .internalFailure
      else .ok ⟨sub.hasAccess, sub.reason, sub.expiresAt⟩

/-- Sequential driver: one EnforcePaywall request at a time, each with its
own timestamp, threading the cache store. -/
def enforceRun (lr : LookupResult) (userID contentID action : String) :
    List Nat → Store → List EnforceOutcome × Store
  | [], st => ([], st)
  | t :: ts, st =>
      let p := enforcePaywall st t userID contentID action lr
      let r := enforceRun lr userID contentID action ts p.2
      (p.1 :: r.1, r.2)

def rateLimitRun (userID action : String) :
    List Nat → Store → List Bool × Store
  | [], st => ([], st)
  | t :: ts, st =>
      let p := checkRateLimit st t userID action
      let r := rateLimitRun userID action ts p.2
      (p.1 :: r.1, r.2)

/-! ### Circuit breaker (internal/payment) -/

inductive BreakerState where
  | closed
  | opened
  | halfOpen
deriving DecidableEq

structure CircuitBreakerConfig where
  enabled : Bool
  failureThreshold : Int
  recoveryTimeout : Int
deriving DecidableEq

structure CircuitBreaker where
  state : BreakerState
  failureCount : Int
  lastFailureTime : Int
deriving DecidableEq

def newCircuitBreaker : CircuitBreaker := ⟨.closed, 0, 0⟩

def nanosPerSecond : Int := 1000000000

/-- CanExecute: time is in nanoseconds, matching
`time.Since(lastFailureTime) > RecoveryTimeout * time.Second` (strict). -/
def canExecute (cfg : CircuitBreakerConfig) (now : Int) (cb : CircuitBreaker) :
    Bool × CircuitBreaker :=
  match cb.state with
  | .closed => (true, cb)
  | .opened =>
      if now - cb.lastFailureTime > cfg.recoveryTimeout * nanosPerSecond then
        (true, { cb with state := .halfOpen })
      else (false, cb)
  | .halfOpen => (true, cb)

def recordSuccess (cb : CircuitBreaker) : CircuitBreaker :=
  { cb with failureCount := 0, state := .closed }

def recordFailure (cfg : CircuitBreakerConfig) (now : Int) (cb : CircuitBreaker) :
    CircuitBreaker :=
  let n := cb.failureCount + 1
  { state := if n ≥ cfg.failureThreshold then .opened else cb.state
    failureCount := n
    lastFailureTime := now }

inductive BreakerOp where
  | canEx (now : Int)
  | success
  | failure (now : Int)
deriving DecidableEq

def breakerStep (cfg : CircuitBreakerConfig) (cb : CircuitBreaker) :
    BreakerOp → CircuitBreaker
  | .canEx now => (canExecute cfg now cb).2
  | .success => recordSuccess cb
  | .failure now => recordFailure cfg now cb

def breakerRun (cfg : CircuitBreakerConfig) (ops : List BreakerOp) : CircuitBreaker :=
  ops.foldl (breakerStep cfg) newCircuitBreaker

def failureRun (cfg : CircuitBreakerConfig) (ts : List Int) : CircuitBreaker :=
  ts.foldl (fun cb t => recordFailure cfg t cb) newCircuitBreaker

/-! ### Webhook processing (internal/payment) -/

structure WebhookEvent where
  id : String
  eventType : String
  payload : String
deriving DecidableEq

structure StoredWebhookEvent where
  id : String
  eventType : String
  payload : String
  processed : Bool
  processedAt : Option Nat
deriving DecidableEq

abbrev WebhookStore := List StoredWebhookEvent

/-- `UPDATE webhook_events SET processed = true, processed_at = NOW()
WHERE id = ...`. -/
def markWebhookProcessed (db : WebhookStore) (eventID : String) (now : Nat) :
    WebhookStore :=
  db.map fun e =>
    if e.id = eventID then { e with processed := true, processedAt := some now } else e

/-- handlePaymentSuccess only logs; it performs no store mutation. -/
def handlePaymentSuccess (db : WebhookStore) (_ev : WebhookEvent) : WebhookStore := db

/-- handlePaymentFailure only logs; it performs no store mutation. -/
def handlePaymentFailure (db : WebhookStore) (_ev : WebhookEvent) : WebhookStore := db

/-- handleInvoicePayment only logs; it performs no store mutation. -/
def handleInvoicePayment (db : WebhookStore) (_ev : WebhookEvent) : WebhookStore := db

def processWebhookEvent (db : WebhookStore) (ev : WebhookEvent) (now : Nat) :
    WebhookStore :=
  let db1 :=
    if ev.eventType = "payment_intent.succeeded" then handlePaymentSuccess db ev
    else if ev.eventType = "payment_intent.payment_failed" then handlePaymentFailure db ev
    else if ev.eventType = "invoice.payment_succeeded" then handleInvoicePayment db ev
    else db
  markWebhookProcessed db1 ev.id now

/-! ### Concrete scenario data used by the claims -/

/-- Subject u1 holds an active subscription to plan p1 ending in 10
minutes (600 s after the first request). -/
def activeSubTenMinutes : LookupResult := .found ⟨"p1", "active", 600⟩

/-- Eleven request timestamps inside one rate-limit window. -/
def c1Times : List Nat := [0, 1, 2, 3, 4, 5, 6, 7, 8, 9, 10]

/-- An active subscription whose end date is far beyond the scenario. -/
def longLivedSub : LookupResult := .found ⟨"p1", "active", 100000⟩

/-- 101 sequential requests, one per rate-limit window, all on one day. -/
def c5Times : List Nat := (List.range 101).map (fun i => 60 * i)

def c5Run : List EnforceOutcome × Store :=
  enforceRun longLivedSub "u1" "article-42" "view" c5Times []

/-- Ten rate-limiter calls inside one window, from an empty store. -/
def c7Times : List Nat := [0, 1, 2, 3, 4, 5, 6, 7, 8, 9]

def c7Run : List Bool × Store := rateLimitRun "u1" "view" c7Times []

/-- A breaker with threshold 3 and 30 s recovery, tripped by three
failures at time 0. -/
def tripBreaker : CircuitBreaker :=
  breakerRun ⟨true, 3, 30⟩ [.failure 0, .failure 0, .failure 0]

/-- Trip the breaker with three failures, then flip it to HalfOpen with a
CanExecute call past the recovery timeout. -/
def c10Ops : List BreakerOp := [.failure 0, .failure 1, .failure 2, .canEx 40000000000]

/-- The invariant relating breaker state and failure count: away from
Closed, the failure count has reached the threshold. -/
def breakerInv (cfg : CircuitBreakerConfig) (cb : CircuitBreaker) : Prop :=
  cb.state = .opened ∨ cb.state = .halfOpen → cfg.failureThreshold ≤ cb.failureCount

/-! ### Helper lemmas about the store and the usage accountant -/

theorem storeLookup_storeSet_self (st : Store) (k : String) (e : Entry) :
    storeLookup (storeSet st k e) k = some e := by
  induction st with
  | nil => simp [storeSet, storeLookup]
  | cons p rest ih =>
      obtain ⟨k0, e0⟩ := p
      by_cases h : k0 = k
      · simp [storeSet, h, storeLookup]
      · simp [storeSet, h, storeLookup, ih]

theorem storeSet_storeSet_self (st : Store) (k : String) (e1 e2 : Entry) :
    storeSet (storeSet st k e1) k e2 = storeSet st k e2 := by
  induction st with
  | nil => simp [storeSet]
  | cons p rest ih =>
      obtain ⟨k0, e0⟩ := p
      by_cases h : k0 = k
      · simp [storeSet, h]
      · simp [storeSet, h, ih]

theorem le_endOfDay (now : Nat) : now ≤ endOfDay now := by
  unfold endOfDay secondsPerDay; omega

theorem lt_endOfDay (now : Nat) (h : now % 86400 ≠ 86399) : now < endOfDay now := by
  unfold endOfDay secondsPerDay; omega

/-- On a live key holding an integer, incrementUsage stores the successor
and (re)stamps the end-of-day deadline, leaving the rest of the store
untouched. -/
theorem incrementUsage_existing (st : Store) (now : Nat) (u a : String) (e : Entry) (c : Int)
    (hd : now % 86400 ≠ 86399)
    (he : storeLookup st (usageKey u a) = some e)
    (hl : entryLive now e = true)
    (hc : atoi? e.value = some c) :
    (incrementUsage st now u a).1 =
      storeSet st (usageKey u a) ⟨intToString (c + 1), some (endOfDay now)⟩ := by
  have hge : redisGetEntry st now (usageKey u a) = some e := by
    unfold redisGetEntry; rw [he]; simp [hl]
  have hlt := lt_endOfDay now hd
  have hle := le_endOfDay now
  have hpos : ¬ ((endOfDay now : Int) - (now : Int) ≤ 0) := by omega
  have hlive2 : entryLive now (⟨intToString (c + 1), e.expiresAt⟩ : Entry) = true := hl
  have hge2 : redisGetEntry (storeSet st (usageKey u a) ⟨intToString (c + 1), e.expiresAt⟩)
      now (usageKey u a) = some ⟨intToString (c + 1), e.expiresAt⟩ := by
    unfold redisGetEntry
    rw [storeLookup_storeSet_self]
    simp [hlive2]
  have htoNat : now + ((endOfDay now : Int) - (now : Int)).toNat = endOfDay now := by omega
  simp only [incrementUsage, redisIncr, hge, hc, redisExpire, hge2, if_neg hpos,
    storeSet_storeSet_self, htoNat]

/-- On an absent (or expired) key, incrementUsage creates the counter at 1
with the end-of-day deadline. -/
theorem incrementUsage_fresh (st : Store) (now : Nat) (u a : String)
    (hd : now % 86400 ≠ 86399)
    (ha : redisGetEntry st now (usageKey u a) = none) :
    (incrementUsage st now u a).1 =
      storeSet st (usageKey u a) ⟨"1", some (endOfDay now)⟩ := by
  have hlt := lt_endOfDay now hd
  have hle := le_endOfDay now
  have hpos : ¬ ((endOfDay now : Int) - (now : Int) ≤ 0) := by omega
  have hge2 : redisGetEntry (storeSet st (usageKey u a) ⟨"1", none⟩)
      now (usageKey u a) = some ⟨"1", none⟩ := by
    unfold redisGetEntry
    rw [storeLookup_storeSet_self]
    simp [entryLive]
  have htoNat : now + ((endOfDay now : Int) - (now : Int)).toNat = endOfDay now := by omega
  simp only [incrementUsage, redisIncr, ha, redisExpire, hge2, if_neg hpos,
    storeSet_storeSet_self, htoNat]

/-- Every branch of checkSubscriptionAccess returns a nil Go error. -/
theorem checkSubscriptionAccess_err_none (lr : LookupResult) (planID : String) (now : Nat) :
    (checkSubscriptionAccess lr planID now).err = none := by
  cases lr with
  | notFound => rfl
  | storeFailure m => rfl
  | found sub =>
      simp only [checkSubscriptionAccess]
      split
      · rfl
      · split
        · rfl
        · split
          · rfl
          · rfl

theorem checkUsageLimits_existing (st : Store) (now : Nat) (u a : String) (e : Entry) (c : Int)
    (he : storeLookup st (usageKey u a) = some e)
    (hl : entryLive now e = true)
    (hc : atoi? e.value = some c) :
    checkUsageLimits st now u a =
      ⟨c, 100, if 100 - c < 0 then 0 else 100 - c⟩ := by
  have hge : redisGetEntry st now (usageKey u a) = some e := by
    unfold redisGetEntry; rw [he]; simp [hl]
  unfold checkUsageLimits redisGet
  rw [hge]
  simp only [Option.map_some', hc]

/-- Every EnforcePaywall outcome is a rate-limit denial, a forbidden
denial, or a 200 verdict whose allowed flag is literally true. -/
theorem enforcePaywall_shape (st : Store) (now : Nat) (u cid a : String) (lr : LookupResult) :
    (enforcePaywall st now u cid a lr).1 = .rateLimited ∨
    (∃ r, (enforcePaywall st now u cid a lr).1 = .forbidden r) ∨
    (∃ x y, (enforcePaywall st now u cid a lr).1 = .ok ⟨true, x, y⟩) := by
  have herr := checkSubscriptionAccess_err_none lr "" now
  unfold enforcePaywall
  by_cases hrl : (checkRateLimit st now u a).1 <;>
    by_cases hacc : (checkSubscriptionAccess lr "" now).hasAccess <;>
      simp [hrl, hacc, herr]

/-! ### Helper lemmas about the circuit breaker -/

theorem breakerStep_inv (cfg : CircuitBreakerConfig) (cb : CircuitBreaker) (op : BreakerOp)
    (h : breakerInv cfg cb) : breakerInv cfg (breakerStep cfg cb op) := by
  obtain ⟨s, n, l⟩ := cb
  cases op with
  | canEx now =>
      cases s with
      | closed => exact h
      | opened =>
          show breakerInv cfg (canExecute cfg now ⟨.opened, n, l⟩).2
          by_cases ht : now - l > cfg.recoveryTimeout * nanosPerSecond
          · simp only [canExecute, if_pos ht]
            intro _
            exact h (Or.inl rfl)
          · simp only [canExecute, if_neg ht]
            exact h
      | halfOpen => exact h
  | success =>
      intro h2
      simp only [breakerStep, recordSuccess] at h2
      rcases h2 with h2 | h2 <;> simp at h2
  | failure now =>
      intro h2
      show cfg.failureThreshold ≤ n + 1
      by_cases hk : n + 1 ≥ cfg.failureThreshold
      · exact hk
      · have hstate : (breakerStep cfg ⟨s, n, l⟩ (.failure now)).state = s := by
          simp only [breakerStep, recordFailure, if_neg hk]
        rw [hstate] at h2
        have h3 : cfg.failureThreshold ≤ n := h h2
        omega

theorem breakerRun_inv (cfg : CircuitBreakerConfig) (ops : List BreakerOp) :
    breakerInv cfg (breakerRun cfg ops) := by
  have hgen : ∀ cb, breakerInv cfg cb → breakerInv cfg (ops.foldl (breakerStep cfg) cb) := by
    induction ops with
    | nil => intro cb h; exact h
    | cons op ops ih =>
        intro cb h
        exact ih _ (breakerStep_inv cfg cb op h)
  refine hgen newCircuitBreaker ?_
  intro h2
  rcases h2 with h2 | h2 <;> simp [newCircuitBreaker] at h2

theorem failureRun_aux (cfg : CircuitBreakerConfig) (h : 1 ≤ cfg.failureThreshold)
    (ts : List Int) :
    ∀ (cb : CircuitBreaker) (k : Int),
      cb.failureCount = k →
      cb.state = (if cfg.failureThreshold ≤ k then BreakerState.opened else .closed) →
      (ts.foldl (fun cb t => recordFailure cfg t cb) cb).failureCount = k + ts.length ∧
      (ts.foldl (fun cb t => recordFailure cfg t cb) cb).state =
        (if cfg.failureThreshold ≤ k + ts.length then BreakerState.opened else .closed) := by
  induction ts with
  | nil =>
      intro cb k h1 h2
      constructor
      · simpa using h1
      · simpa using h2
  | cons t ts ih =>
      intro cb k h1 h2
      have step1 : (recordFailure cfg t cb).failureCount = k + 1 := by
        simp [recordFailure, h1]
      have step2 : (recordFailure cfg t cb).state =
          (if cfg.failureThreshold ≤ k + 1 then BreakerState.opened else .closed) := by
        show (if cb.failureCount + 1 ≥ cfg.failureThreshold
            then BreakerState.opened else cb.state) = _
        rw [h1]
        by_cases hk : cfg.failureThreshold ≤ k + 1
        · rw [if_pos (by omega), if_pos hk]
        · have hk2 : ¬ cfg.failureThreshold ≤ k := by omega
          rw [if_neg (by omega), if_neg hk, h2, if_neg hk2]
      have hrest := ih (recordFailure cfg t cb) (k + 1) step1 step2
      have hlen : k + 1 + (ts.length : Int) = k + ((t :: ts).length : Int) := by
        simp
        omega
      constructor
      · rw [List.foldl_cons, hrest.1, hlen]
      · rw [List.foldl_cons, hrest.2, hlen]

/-! ### Claim C1 -/

/-- C1, counterexample: with an active subscription ending at 600 and no
prior state, the very first EnforcePaywall call does NOT return the
usage snapshot current = 1, remaining = 99 that the claim asserts; the
snapshot is read before the increment, so it shows current = 0,
remaining = 100. -/
theorem c1_counterexample :
    (enforceRun activeSubTenMinutes "u1" "article-42" "view" [0] []).1 ≠
      [EnforceOutcome.ok ⟨true, some 600, ⟨1, 100, 99⟩⟩] := by decide

/-- C1 (amended): for a subject with an active unexpired subscription and
no prior state, the first 10 EnforcePaywall calls in one rate-limit
window are allowed with the usage snapshot showing current =
0,1,2,...,9 and remaining = 100,99,...,91 (the snapshot is read before
the increment), and the 11th call in the same window is denied with the
rate-limit reason (HTTP 429), regardless of remaining usage quota. -/
theorem c1_enforce_scenario :
    (enforceRun activeSubTenMinutes "u1" "article-42" "view" c1Times []).1 =
      [.ok ⟨true, some 600, ⟨0, 100, 100⟩⟩,
       .ok ⟨true, some 600, ⟨1, 100, 99⟩⟩,
       .ok ⟨true, some 600, ⟨2, 100, 98⟩⟩,
       .ok ⟨true, some 600, ⟨3, 100, 97⟩⟩,
       .ok ⟨true, some 600, ⟨4, 100, 96⟩⟩,
       .ok ⟨true, some 600, ⟨5, 100, 95⟩⟩,
       .ok ⟨true, some 600, ⟨6, 100, 94⟩⟩,
       .ok ⟨true, some 600, ⟨7, 100, 93⟩⟩,
       .ok ⟨true, some 600, ⟨8, 100, 92⟩⟩,
       .ok ⟨true, some 600, ⟨9, 100, 91⟩⟩,
       .rateLimited] ∧
    statusOf .rateLimited = 429 := by decide

/-! ### Claim C2 -/

/-- C2, counterexample: a breaker tripped at time T = 0 with a 30 s
recovery timeout still returns false from CanExecute at exactly
T + 30 s, because the source compares with strict greater-than; the
claim asserts that this call returns true. -/
theorem c2_counterexample :
    tripBreaker.state = .opened ∧
    tripBreaker.lastFailureTime = 0 ∧
    canExecute ⟨true, 3, 30⟩ (30 * nanosPerSecond) tripBreaker = (false, tripBreaker) := by
  decide

/-- C2 (amended): while the breaker is Open, every CanExecute call at a
time at most lastFailureTime + recoveryTimeout seconds returns false
and leaves the breaker unchanged; a call strictly later returns true
and flips the state to HalfOpen. At exactly the recovery boundary the
call still returns false. -/
theorem c2_recovery_requires_strictly_later_call (cfg : CircuitBreakerConfig)
    (cb : CircuitBreaker) (now : Int) (h : cb.state = .opened) :
    (now - cb.lastFailureTime ≤ cfg.recoveryTimeout * nanosPerSecond →
        canExecute cfg now cb = (false, cb)) ∧
    (cfg.recoveryTimeout * nanosPerSecond < now - cb.lastFailureTime →
        canExecute cfg now cb = (true, { cb with state := .halfOpen })) := by
  obtain ⟨s, n, l⟩ := cb
  have h2 : s = .opened := h
  subst h2
  constructor
  · intro hle
    have hneg : ¬ (now - l > cfg.recoveryTimeout * nanosPerSecond) := by
      simp only [gt_iff_lt, not_lt]
      exact hle
    simp only [canExecute, if_neg hneg]
  · intro hlt
    have hpos : now - l > cfg.recoveryTimeout * nanosPerSecond := hlt
    simp only [canExecute, if_pos hpos]

/-- C2, witness: the boundary call returns false; one nanosecond later
the call returns true and flips to HalfOpen. -/
theorem c2_recovery_witness :
    canExecute ⟨true, 3, 30⟩ 30000000000 ⟨.opened, 3, 0⟩ = (false, ⟨.opened, 3, 0⟩) ∧
    canExecute ⟨true, 3, 30⟩ 30000000001 ⟨.opened, 3, 0⟩ = (true, ⟨.halfOpen, 3, 0⟩) :=
  ⟨(c2_recovery_requires_strictly_later_call ⟨true, 3, 30⟩ ⟨.opened, 3, 0⟩
      30000000000 rfl).1 (by decide),
   (c2_recovery_requires_strictly_later_call ⟨true, 3, 30⟩ ⟨.opened, 3, 0⟩
      30000000001 rfl).2 (by decide)⟩

/-! ### Claim C3 -/

/-- C3, counterexample: incrementUsage on an already-existing usage key
does NOT leave its time-to-live unchanged: a key whose deadline is 500
is re-stamped to the end-of-day deadline 86399 by the unconditional
Expire call, so the expiry is set on every increment, not only when
the key was newly created. -/
theorem c3_counterexample :
    storeLookup (incrementUsage [("usage:u1:view", ⟨"5", some 500⟩)] 100 "u1" "view").1
        "usage:u1:view" = some ⟨"6", some 86399⟩ ∧
    some 500 ≠ (some 86399 : Option Nat) := by decide

/-- C3 (amended): incrementUsage atomically increments the per-(subject,
action) daily counter and sets the key expiry to the end of the current
calendar day on EVERY call, whether the key already existed or was newly
created; for a key created earlier the same day (whose deadline is
already the end of the current day) the deadline value is therefore
unchanged. -/
theorem c3_increment_always_stamps_end_of_day (st : Store) (now : Nat) (u a : String)
    (hd : now % 86400 ≠ 86399) :
    (∀ e c, storeLookup st (usageKey u a) = some e → entryLive now e = true →
        atoi? e.value = some c →
        storeLookup (incrementUsage st now u a).1 (usageKey u a) =
          some ⟨intToString (c + 1), some (endOfDay now)⟩) ∧
    (redisGetEntry st now (usageKey u a) = none →
        storeLookup (incrementUsage st now u a).1 (usageKey u a) =
          some ⟨"1", some (endOfDay now)⟩) := by
  constructor
  · intro e c he hl hc
    rw [incrementUsage_existing st now u a e c hd he hl hc, storeLookup_storeSet_self]
  · intro ha
    rw [incrementUsage_fresh st now u a hd ha, storeLookup_storeSet_self]

/-- C3, witness: incrementing an existing key holding 7 (created the same
day, deadline 86399) yields 8 with the same end-of-day deadline. -/
theorem c3_witness :
    storeLookup (incrementUsage [(usageKey "u1" "view", ⟨"7", some 86399⟩)] 50 "u1" "view").1
        (usageKey "u1" "view") =
      some ⟨intToString (7 + 1), some (endOfDay 50)⟩ :=
  (c3_increment_always_stamps_end_of_day [(usageKey "u1" "view", ⟨"7", some 86399⟩)]
      50 "u1" "view" (by decide)).1
    ⟨"7", some 86399⟩ 7 (by decide) (by decide) (by decide)

/-! ### Claim C4 -/

/-- C4, counterexample: an EnforcePaywall call denied by the rate limiter
returns HTTP status 429 with an error body, not a successful response
with allowed = false as the claim asserts. -/
theorem c4_counterexample :
    (enforcePaywall [(rateLimitKey "u1" "view", ⟨"10", some 60⟩)] 0 "u1" "article-42" "view"
        activeSubTenMinutes).1 = .rateLimited ∧
    statusOf .rateLimited = 429 ∧
    statusOf .rateLimited ≠ 200 := by decide

/-- C4 (amended): business denials of EnforcePaywall are returned as HTTP
error statuses, never as successful responses carrying a negative
verdict: a rate-limit denial is status 429, a subscription denial is
status 403 with the reason, and every successful (status 200) response
carries allowed = true, so an allowed = false verdict never occurs. -/
theorem c4_denials_are_error_statuses (st : Store) (now : Nat) (u cid a : String)
    (lr : LookupResult) :
    ((enforcePaywall st now u cid a lr).1 = .rateLimited →
        statusOf (enforcePaywall st now u cid a lr).1 = 429) ∧
    (∀ r, (enforcePaywall st now u cid a lr).1 = .forbidden r →
        statusOf (enforcePaywall st now u cid a lr).1 = 403) ∧
    (∀ resp, (enforcePaywall st now u cid a lr).1 = .ok resp →
        statusOf (enforcePaywall st now u cid a lr).1 = 200 ∧ resp.allowed = true) := by
  refine ⟨fun h => by rw [h]; rfl, fun r h => by rw [h]; rfl, fun resp h => ?_⟩
  rw [h]
  refine ⟨rfl, ?_⟩
  rcases enforcePaywall_shape st now u cid a lr with hs | ⟨r, hs⟩ | ⟨x, y, hs⟩
  · rw [hs] at h; cases h
  · rw [hs] at h; cases h
  · rw [hs] at h
    injection h with h2
    rw [← h2]

/-- C4, witness: a first allowed call from an empty store is a 200
response with allowed = true. -/
theorem c4_witness :
    statusOf (enforcePaywall [] 0 "u1" "article-42" "view" activeSubTenMinutes).1 = 200 ∧
    (⟨true, some 600, ⟨0, 100, 100⟩⟩ : PaywallEnforceResponse).allowed = true :=
  (c4_denials_are_error_statuses [] 0 "u1" "article-42" "view" activeSubTenMinutes).2.2
    ⟨true, some 600, ⟨0, 100, 100⟩⟩ (by decide)

/-! ### Claim C5 -/

/-- C5, counterexample: 101 sequential EnforcePaywall calls for the same
(subject, action), one per rate-limit window within a single day and
all allowed, leave the daily usage counter at 101, exceeding the quota
of 100 persistently: the claim that sequential execution never exceeds
the quota is false, because the engine never denies on exhausted usage. -/
theorem c5_counterexample :
    c5Run.1.all EnforceOutcome.isOk = true ∧
    checkUsageLimits c5Run.2 6000 "u1" "view" = ⟨101, 100, 0⟩ ∧
    100 < (checkUsageLimits c5Run.2 6000 "u1" "view").current := by decide

/-- C5 (amended): the usage quota does not bound the counter even under
sequential execution: whenever the rate limiter and the subscription
check allow a request, EnforcePaywall returns allowed = true and
increments the usage counter even when the counter has already reached
or passed the quota of 100 (the snapshot then reports remaining = 0);
the counter grows without bound, limited only by the rate limiter. -/
theorem c5_enforce_ignores_quota (st st1 : Store) (now : Nat) (u cid a : String)
    (lr : LookupResult) (e : Entry) (c : Int)
    (hr : checkRateLimit st now u a = (true, st1))
    (hs : (checkSubscriptionAccess lr "" now).hasAccess = true)
    (he : storeLookup st1 (usageKey u a) = some e)
    (hl : entryLive now e = true)
    (hc : atoi? e.value = some c)
    (hq : 100 ≤ c)
    (hd : now % 86400 ≠ 86399) :
    enforcePaywall st now u cid a lr =
      (.ok ⟨true, (checkSubscriptionAccess lr "" now).expiresAt, ⟨c, 100, 0⟩⟩,
        storeSet st1 (usageKey u a) ⟨intToString (c + 1), some (endOfDay now)⟩) := by
  have herr := checkSubscriptionAccess_err_none lr "" now
  have hul : checkUsageLimits st1 now u a = ⟨c, 100, 0⟩ := by
    rw [checkUsageLimits_existing st1 now u a e c he hl hc]
    have hrem : (if (100 : Int) - c < 0 then (0 : Int) else 100 - c) = 0 := by
      by_cases h100 : (100 : Int) - c < 0
      · rw [if_pos h100]
      · rw [if_neg h100]
        omega
    rw [hrem]
  have hinc := incrementUsage_existing st1 now u a e c hd he hl hc
  unfold enforcePaywall
  rw [hr]
  simp only [herr, hs, hul, hinc, Option.isSome_none, Bool.false_eq_true, if_false, if_true]

/-- C5, witness: with the counter already at the quota of 100, an allowed
call still succeeds and pushes the counter to 101. -/
theorem c5_witness :
    enforcePaywall [(usageKey "u1" "view", ⟨"100", some 86399⟩)] 0 "u1" "article-42" "view"
        activeSubTenMinutes =
      (.ok ⟨true, (checkSubscriptionAccess activeSubTenMinutes "" 0).expiresAt, ⟨100, 100, 0⟩⟩,
        storeSet [(usageKey "u1" "view", ⟨"100", some 86399⟩),
            (rateLimitKey "u1" "view", ⟨"1", some 60⟩)]
          (usageKey "u1" "view") ⟨intToString (100 + 1), some (endOfDay 0)⟩) :=
  c5_enforce_ignores_quota [(usageKey "u1" "view", ⟨"100", some 86399⟩)]
    [(usageKey "u1" "view", ⟨"100", some 86399⟩), (rateLimitKey "u1" "view", ⟨"1", some 60⟩)]
    0 "u1" "article-42" "view" activeSubTenMinutes ⟨"100", some 86399⟩ 100
    (by decide) (by decide) (by decide) (by decide) (by decide) (by decide) (by decide)

/-! ### Claim C6 -/

/-- C6: starting from the initial breaker (Closed, 0 failures), for every
sequence of RecordFailure calls the failure count equals the number of
calls and the breaker is Open exactly when the count has reached the
failure threshold — so it transitions to Open at the call on which the
count reaches the threshold and is never Open before that call. -/
theorem c6_opens_exactly_at_threshold (cfg : CircuitBreakerConfig)
    (h : 1 ≤ cfg.failureThreshold) (ts : List Int) :
    (failureRun cfg ts).failureCount = ts.length ∧
    ((failureRun cfg ts).state = .opened ↔ cfg.failureThreshold ≤ (ts.length : Int)) := by
  have h0 : (newCircuitBreaker).failureCount = 0 := rfl
  have hs : (newCircuitBreaker).state =
      (if cfg.failureThreshold ≤ (0 : Int) then BreakerState.opened else .closed) := by
    rw [if_neg (by omega)]
    rfl
  have haux := failureRun_aux cfg h ts newCircuitBreaker 0 h0 hs
  unfold failureRun
  constructor
  · rw [haux.1]; omega
  · rw [haux.2]
    by_cases hk : cfg.failureThreshold ≤ (ts.length : Int)
    · rw [if_pos (by omega)]
      simp [hk]
    · rw [if_neg (by omega)]
      simp [hk]

/-- C6, witness: with threshold 3, three failures leave the count at 3 and
the breaker Open (and with two failures it would not yet be Open). -/
theorem c6_witness :
    (failureRun ⟨true, 3, 30⟩ [0, 1, 2]).failureCount = (([0, 1, 2] : List Int)).length ∧
    ((failureRun ⟨true, 3, 30⟩ [0, 1, 2]).state = .opened ↔
      (3 : Int) ≤ ((([0, 1, 2] : List Int)).length : Int)) :=
  c6_opens_exactly_at_threshold ⟨true, 3, 30⟩ (by decide) [0, 1, 2]

/-! ### Claim C7 -/

/-- C7: for a fixed (subject, action) with no pre-existing counter, the
first 10 rate-limiter calls within one window all return true; the 11th
call within the same window (here at second 30, window deadline 60)
returns false and leaves the store exactly unchanged; and a call made
once the window has elapsed (at second 60, when the counter key has
expired) returns true again. -/
theorem c7_rate_limit_window :
    c7Run.1 = [true, true, true, true, true, true, true, true, true, true] ∧
    checkRateLimit c7Run.2 30 "u1" "view" = (false, c7Run.2) ∧
    (checkRateLimit c7Run.2 60 "u1" "view").1 = true := by decide

/-! ### Claim C8 -/

/-- C8: a webhook event whose type is none of the three recognized types
triggers no business reaction: processing it equals just marking it
processed, and the stored-event table changes only by setting
processed = true and the processed-at timestamp on rows with that
event id. -/
theorem c8_unrecognized_webhook_marks_processed (db : WebhookStore) (ev : WebhookEvent)
    (now : Nat)
    (h1 : ev.eventType ≠ "payment_intent.succeeded")
    (h2 : ev.eventType ≠ "payment_intent.payment_failed")
    (h3 : ev.eventType ≠ "invoice.payment_succeeded") :
    processWebhookEvent db ev now = markWebhookProcessed db ev.id now ∧
    processWebhookEvent db ev now =
      db.map (fun e =>
        if e.id = ev.id then { e with processed := true, processedAt := some now }
        else e) := by
  unfold processWebhookEvent
  rw [if_neg h1, if_neg h2, if_neg h3]
  exact ⟨rfl, rfl⟩

/-- C8, witness: an event of type customer.created is only marked
processed. -/
theorem c8_witness :
    processWebhookEvent [⟨"evt1", "customer.created", "p", false, none⟩]
        ⟨"evt1", "customer.created", "p"⟩ 42 =
      markWebhookProcessed [⟨"evt1", "customer.created", "p", false, none⟩] "evt1" 42 :=
  (c8_unrecognized_webhook_marks_processed [⟨"evt1", "customer.created", "p", false, none⟩]
      ⟨"evt1", "customer.created", "p"⟩ 42 (by decide) (by decide) (by decide)).1

/-! ### Claim C9 -/

/-- C9: checkSubscriptionAccess never returns a non-nil error: every
outcome, including a store/query failure, yields a nil error, and a
store failure is treated exactly like not-found, producing a denial
with reason "No active subscription found"; consequently the
internal-server-error branch of CheckAccess is unreachable. -/
theorem c9_subscription_check_never_errors (lr : LookupResult) (planID : String) (now : Nat)
    (cached : Option PaywallCheckResponse) (m : String) :
    (checkSubscriptionAccess lr planID now).err = none ∧
    checkSubscriptionAccess (.storeFailure m) planID now =
      checkSubscriptionAccess .notFound planID now ∧
    (checkSubscriptionAccess (.storeFailure m) planID now).hasAccess = false ∧
    (checkSubscriptionAccess (.storeFailure m) planID now).reason =
      "No active subscription found" ∧
    checkAccess cached lr planID now ≠ .internalFailure := by
  refine ⟨checkSubscriptionAccess_err_none lr planID now, rfl, rfl, rfl, ?_⟩
  cases cached with
  | some resp => simp [checkAccess]
  | none => simp [checkAccess, checkSubscriptionAccess_err_none]

/-- C9, witness: a concrete store failure produces a nil error and does
not reach the internal-error branch of CheckAccess. -/
theorem c9_witness :
    (checkSubscriptionAccess (.storeFailure "connection timeout") "p1" 5).err = none ∧
    checkAccess none (.storeFailure "connection timeout") "p1" 5 ≠ .internalFailure :=
  ⟨(c9_subscription_check_never_errors (.storeFailure "connection timeout") "p1" 5 none
      "connection timeout").1,
   (c9_subscription_check_never_errors (.storeFailure "connection timeout") "p1" 5 none
      "connection timeout").2.2.2.2⟩

/-! ### Claim C10 -/

/-- C10: with failureThreshold at least 1, every breaker state reachable
from the initial state by CanExecute, RecordSuccess and RecordFailure
calls satisfies: Open or HalfOpen implies failureCount has reached the
threshold; hence a single RecordFailure while HalfOpen returns the
breaker to Open, and a single RecordSuccess from any reachable state
returns it to Closed with failureCount = 0. -/
theorem c10_breaker_invariant (cfg : CircuitBreakerConfig) (h : 1 ≤ cfg.failureThreshold)
    (ops : List BreakerOp) (t : Int) :
    ((breakerRun cfg ops).state = .opened ∨ (breakerRun cfg ops).state = .halfOpen →
        cfg.failureThreshold ≤ (breakerRun cfg ops).failureCount) ∧
    ((breakerRun cfg ops).state = .halfOpen →
        (recordFailure cfg t (breakerRun cfg ops)).state = .opened) ∧
    (recordSuccess (breakerRun cfg ops)).state = .closed ∧
    (recordSuccess (breakerRun cfg ops)).failureCount = 0 := by
  have hinv := breakerRun_inv cfg ops
  refine ⟨hinv, ?_, rfl, rfl⟩
  intro hho
  have hc := hinv (Or.inr hho)
  show (if (breakerRun cfg ops).failureCount + 1 ≥ cfg.failureThreshold
      then BreakerState.opened else (breakerRun cfg ops).state) = .opened
  rw [if_pos (by omega)]

/-- C10, witness: after three failures and a successful recovery probe
gate (HalfOpen), the count is at the threshold, one more failure
re-opens, and a success closes with count 0. -/
theorem c10_witness :
    (3 : Int) ≤ (breakerRun ⟨true, 3, 30⟩ c10Ops).failureCount ∧
    (recordFailure ⟨true, 3, 30⟩ 50000000000 (breakerRun ⟨true, 3, 30⟩ c10Ops)).state =
      .opened ∧
    (recordSuccess (breakerRun ⟨true, 3, 30⟩ c10Ops)).state = .closed ∧
    (recordSuccess (breakerRun ⟨true, 3, 30⟩ c10Ops)).failureCount = 0 :=
  ⟨(c10_breaker_invariant ⟨true, 3, 30⟩ (by decide) c10Ops 50000000000).1
      (Or.inr (by decide)),
   (c10_breaker_invariant ⟨true, 3, 30⟩ (by decide) c10Ops 50000000000).2.1 (by decide),
   (c10_breaker_invariant ⟨true, 3, 30⟩ (by decide) c10Ops 50000000000).2.2.1,
   (c10_breaker_invariant ⟨true, 3, 30⟩ (by decide) c10Ops 50000000000).2.2.2⟩
